import Mathlib

/-!
Shallow embedding of the omnispread client-side core: the asynchronous
task-lifecycle client (`getResults` / `pollResults` in `lib/api.ts`), the
spread-path synthesizer in `components/pair-detail-modal.tsx`, and the scan
submission pipeline (`components/scan-form.tsx` / `app/page.tsx`).

Strings from the source are modelled as lists of Unicode code points
(`List Nat`); real-valued computations are modelled over `ℝ`.
-/

namespace Omnispread

/-! ### Data model (`lib/api.ts`) -/

/-- Task lifecycle status, from the `TaskResult.status` union type in
`lib/api.ts`: `"processing" | "completed" | "failed" | "not_found"`. -/
inductive Status where
  | processing
  | completed
  | failed
  | notFound
deriving DecidableEq, Repr

/-- PairResult, from the `PairResult` interface in `lib/api.ts`.  Numeric
fields are modelled over `ℝ`, string fields as code-point lists.  The
`historical_z_scores` series is modelled by its values. -/
structure PairResult where
  pair : List Nat
  combo : List Nat
  method : List Nat
  price_corr : ℝ
  z_score : ℝ
  half_life : ℝ
  move_to_mean : ℝ
  exp_return : ℝ
  unit_price : ℝ
  hurst : ℝ
  prob_profit : ℝ
  prob_profit_low : ℝ
  prob_profit_high : ℝ
  same_sector : List Nat
  extreme_z_in_hl : List Nat
  extreme_z_detail : List Nat
  profitable_since_extreme : List Nat
  pnl_since_extreme : ℝ
  historical_z_scores : List ℝ

/-- TaskResult, from the `TaskResult` interface in `lib/api.ts`. -/
structure TaskResult where
  task_id : List Nat
  status : Status
  results : List PairResult
  error : Option (List Nat)

/-- An HTTP response as seen by `getResults`: the transport-success flag
`res.ok` and the decoded JSON body. -/
structure HttpResp where
  ok : Bool
  body : TaskResult

/-- Errors the task client can raise: `getResults` throws
`Error("Results fetch failed: ...")` when `!res.ok`, and `pollResults`
throws `Error("Polling timed out")` when the attempt ceiling is hit. -/
inductive PollError where
  | fetchFailed
  | timedOut
deriving DecidableEq, Repr

/-- Embeds `getResults` (`lib/api.ts` lines 225-229): one status fetch; if
the response is not ok it throws (a `FetchError`), otherwise it returns the
decoded `TaskResult` whatever its `status` field is. -/
def getResults (r : HttpResp) : Except PollError TaskResult :=
  if r.ok then Except.ok r.body else Except.error PollError.fetchFailed

/-- Observable events of one run of the polling loop: a transport fetch, an
`onUpdate` observer invocation carrying the fetched snapshot, and the
`setTimeout` suspension between polls. -/
inductive PollEvent where
  | fetched (ok : Bool)
  | updated (r : TaskResult)
  | slept

/-- Embeds the `while (attempts < maxAttempts)` loop body of `pollResults`
(`lib/api.ts` lines 243-252).  `attempt` is the current value of `attempts`
and `fuel` the remaining iterations `maxAttempts - attempts`; the network
is modelled by the per-attempt oracle `resp`.  Each iteration fetches,
invokes the observer, returns on a terminal status, and otherwise sleeps
for the poll interval and recurses.  Exhausted fuel is the
`throw new Error("Polling timed out")` exit.  The returned trace records
the events in order. -/
def pollLoop (resp : Nat → HttpResp) (attempt : Nat) :
    Nat → List PollEvent × Except PollError TaskResult
  | 0 => ([], Except.error PollError.timedOut)
  | fuel + 1 =>
    match getResults (resp attempt) with
    | Except.error e => ([PollEvent.fetched false], Except.error e)
    | Except.ok r =>
      if r.status = Status.completed ∨ r.status = Status.failed then
        ([PollEvent.fetched true, PollEvent.updated r], Except.ok r)
      else
        (PollEvent.fetched true :: PollEvent.updated r :: PollEvent.slept ::
            (pollLoop resp (attempt + 1) fuel).1,
          (pollLoop resp (attempt + 1) fuel).2)

/-- Embeds `pollResults` (`lib/api.ts` lines 237-254): the loop starts at
`attempts = 0` and may run at most `maxAttempts` iterations. -/
def pollResults (resp : Nat → HttpResp) (maxAttempts : Nat) :
    List PollEvent × Except PollError TaskResult :=
  pollLoop resp 0 maxAttempts

/-- Snapshots delivered to the `onUpdate` observer, in order, read off a
trace. -/
def observed (tr : List PollEvent) : List TaskResult :=
  tr.filterMap fun e =>
    match e with
    | PollEvent.updated r => some r
    | _ => none

/-- Number of status fetches in a trace. -/
def countFetches (tr : List PollEvent) : Nat :=
  tr.countP fun e =>
    match e with
    | PollEvent.fetched _ => true
    | _ => false

/-- Number of observer invocations in a trace. -/
def countUpdates (tr : List PollEvent) : Nat :=
  tr.countP fun e =>
    match e with
    | PollEvent.updated _ => true
    | _ => false

/-! ### Spread synthesizer (`components/pair-detail-modal.tsx`, lines 41-67)

The `useEffect` body synthesizes a mean-reverting spread path from the
selected pair's `half_life` and `z_score`.  `Math.random()` draws are
modelled by an explicit noise stream `noise : ℕ → ℝ` (the i-th draw, a
value in `[0,1)` at runtime); JS float arithmetic is modelled over `ℝ`. -/

/-- Per-step persistence coefficient, line 51:
`const phi = Math.exp(-Math.log(2) / halfLife)`. -/
noncomputable def phi (halfLife : ℝ) : ℝ :=
  Real.exp (-Real.log 2 / halfLife)

/-- Innovation scale `sigma`, line 52: `const sigma = 1`. -/
def sigma : ℝ := 1

/-- Stationary band scale, lines 60 and 66:
`const rollingSigma = sigma * Math.sqrt(1 / (2 * Math.log(2) / halfLife))`. -/
noncomputable def rollingSigma (halfLife : ℝ) : ℝ :=
  sigma * Real.sqrt (1 / (2 * Real.log 2 / halfLife))

/-- One update of the spread recursion, line 58:
`spread = phi * spread + sigma * (Math.random() - 0.5) * 2 * Math.sqrt(1 - phi * phi)`,
with `u` the `Math.random()` draw of this step. -/
noncomputable def spreadNext (halfLife prev u : ℝ) : ℝ :=
  phi halfLife * prev +
    sigma * (u - 0.5) * 2 * Real.sqrt (1 - phi halfLife * phi halfLife)

/-- The spread value pushed at loop index `i` (`let spread = 0` before the
loop, then one `spreadNext` update per iteration). -/
noncomputable def spreadPath (halfLife : ℝ) (noise : ℕ → ℝ) : ℕ → ℝ
  | 0 => spreadNext halfLife 0 (noise 0)
  | n + 1 => spreadNext halfLife (spreadPath halfLife noise n) (noise (n + 1))

/-- Series length, line 42: `const days = 252`. -/
def days : Nat := 252

/-- The `data` array as filled by the `for` loop (values by index; the
calendar-day timestamps carry no information used by the claims). -/
noncomputable def rawData (halfLife : ℝ) (noise : ℕ → ℝ) : List ℝ :=
  (List.range days).map (spreadPath halfLife noise)

/-- SpreadSeries: the four parallel value series handed to the chart. -/
structure SpreadSeries where
  data : List ℝ
  upper : List ℝ
  lower : List ℝ
  mean : List ℝ

/-- Embeds the whole synthesis (lines 42-67): the random walk filled into
`data`, constant bands `±2 * rollingSigma`, a constant zero mean line, and
the anchor overwrite of line 67:
`data[data.length - 1].value = pair.z_score * rollingSigma`. -/
noncomputable def synthSeries (halfLife zScore : ℝ) (noise : ℕ → ℝ) : SpreadSeries :=
  { data := (rawData halfLife noise).set (days - 1) (zScore * rollingSigma halfLife)
    upper := (List.range days).map fun _ => 2 * rollingSigma halfLife
    lower := (List.range days).map fun _ => -2 * rollingSigma halfLife
    mean := (List.range days).map fun _ => 0 }

/-- Outcome vocabulary for the synthesizer entry point.  The source has no
guard and no `throw` anywhere in the synthesis block, so the embedding can
only ever produce `ok`; `invalidParameter` exists to state claims about the
(absent) precondition check. -/
inductive SynthOutcome where
  | ok (s : SpreadSeries)
  | invalidParameter

/-- The synthesizer as invoked by the modal: unconditionally computes the
series — there is no half-life validation in the source (lines 49-67). -/
noncomputable def synthesize (halfLife zScore : ℝ) (noise : ℕ → ℝ) : SynthOutcome :=
  SynthOutcome.ok (synthSeries halfLife zScore noise)

/-! ### Variance model of the spread recursion

The spread update multiplies the `Math.random()` draw `u` by
`sigma * (u - 0.5) * 2 * sqrt(1 - phi^2)`.  With `u` uniform on `[0,1)` and
draws independent, second-order propagation through
`spread = phi * spread + noiseScale * noise` gives
`Var(spread_i) = phi^2 * Var(spread_{i-1}) + noiseScale^2 * Var(noise)`.
The distributional semantics is not in the code; these definitions model it
from the source's update rule for the numerical claim about stationary
variance. -/

/-- Mean of the code's noise term `(Math.random() - 0.5) * 2` with
`Math.random()` uniform on the unit interval. -/
noncomputable def noiseMean : ℝ :=
  ∫ u in (0:ℝ)..1, (u - 0.5) * 2

/-- Variance of the code's noise term `(Math.random() - 0.5) * 2` with
`Math.random()` uniform on the unit interval. -/
noncomputable def noiseVar : ℝ :=
  ∫ u in (0:ℝ)..1, ((u - 0.5) * 2 - noiseMean) ^ 2

/-- The deterministic factor multiplying the noise draw in line 58. -/
noncomputable def noiseScale (halfLife : ℝ) : ℝ :=
  Real.sqrt (1 - phi halfLife * phi halfLife)

/-- Variance of `spreadPath halfLife noise i` under independent uniform
draws: `spread` starts at the constant 0, so
`Var(spread_0) = noiseScale^2 * noiseVar`, and each step multiplies the
previous variance by `phi^2` and adds the innovation variance. -/
noncomputable def spreadVar (halfLife : ℝ) : ℕ → ℝ
  | 0 => noiseScale halfLife ^ 2 * noiseVar
  | n + 1 => phi halfLife ^ 2 * spreadVar halfLife n + noiseScale halfLife ^ 2 * noiseVar

/-! ### Scan submission (`components/scan-form.tsx` lines 42-54 and
`app/page.tsx` lines 16-30)

Ticker strings are code-point lists.  The form's `handleScan` splits the
input on the regex `/[,\s]+/`, trims and uppercases each token, filters
out falsy (empty) tokens, and — only when at least two tickers remain —
invokes `onScan`.  `onScan` is `page.tsx`'s `handleScan`, whose parameter
list is `(tickers, period)`: it forwards `startScan({ tickers, period })`. -/

/-- The lookback period enumeration of `PERIODS` in `scan-form.tsx`. -/
inductive Period where
  | p6mo
  | p1y
  | p2y
  | p3y
  | p5y
  | custom
deriving DecidableEq, Repr

/-- JS `\s` whitespace on the code points the form can see (space, tab,
LF, VT, FF, CR). -/
def isWhite (c : Nat) : Bool :=
  c == 32 || c == 9 || c == 10 || c == 11 || c == 12 || c == 13

/-- A separator of the split regex `/[,\s]+/`: a comma or whitespace. -/
def isSep (c : Nat) : Bool :=
  c == 44 || isWhite c

/-- Character-wise split at separators.  `filter`ing out the empty pieces
afterwards (as the source does with `.filter(Boolean)`) yields exactly the
maximal separator-free runs, which is what the run-collapsing regex split
followed by `.filter(Boolean)` produces. -/
def splitSeps (p : Nat → Bool) : List Nat → List (List Nat)
  | [] => [[]]
  | c :: cs =>
    match splitSeps p cs with
    | [] => [[]]
    | t :: ts => if p c then [] :: t :: ts else (c :: t) :: ts

/-- JS `String.prototype.trim`: strip leading and trailing whitespace. -/
def jsTrim (s : List Nat) : List Nat :=
  ((s.dropWhile isWhite).reverse.dropWhile isWhite).reverse

/-- JS `String.prototype.toUpperCase` on one code point (ASCII range, the
range ticker symbols live in). -/
def jsToUpperCode (c : Nat) : Nat :=
  if 97 ≤ c ∧ c ≤ 122 then c - 32 else c

/-- The ticker normalization of `scan-form.tsx` lines 43-46:
`tickerInput.split(/[,\s]+/).map(t => t.trim().toUpperCase()).filter(Boolean)`. -/
def normalizeTickers (input : List Nat) : List (List Nat) :=
  ((splitSeps isSep input).map fun t => (jsTrim t).map jsToUpperCode).filter
    fun t => !t.isEmpty

/-- The request body `startScan` posts to the `/scan` endpoint, from the
`ScanRequest` interface in `lib/api.ts` (optional fields are `Option`,
`none` when the JSON key is absent). -/
structure ScanRequest where
  tickers : List (List Nat)
  period : Period
  start_date : Option (List Nat)
  end_date : Option (List Nat)
deriving DecidableEq, Repr

/-- Embeds `handleScan` of `app/page.tsx` (lines 16-30): its parameter
list binds only `(tickers, period)`, so any further arguments supplied by
the caller are discarded, and the posted body is
`startScan({ tickers, period })` — no `start_date`/`end_date` keys. -/
def pageHandleScan (tickers : List (List Nat)) (period : Period)
    (_startDate _endDate : Option (List Nat)) : ScanRequest :=
  { tickers := tickers, period := period, start_date := none, end_date := none }

/-- What one click of the scan button does: either nothing observable
(fewer than two normalized tickers — the source's `if` has no `else`), or
a network submission of a request.  The source contains no validation
error path. -/
inductive FormOutcome where
  | ignored
  | submitted (req : ScanRequest)
deriving DecidableEq, Repr

/-- Embeds `handleScan` of `components/scan-form.tsx` (lines 42-54)
composed with the page's `onScan`: normalize the ticker input; when at
least two tickers remain, call `onScan(tickers, period, startDate, endDate)`
for a custom period and `onScan(tickers, period)` otherwise; do nothing
when fewer than two tickers remain. -/
def scanFormHandleScan (input : List Nat) (period : Period)
    (startDate endDate : List Nat) : FormOutcome :=
  let tickers := normalizeTickers input
  if 2 ≤ tickers.length then
    if period = Period.custom then
      FormOutcome.submitted (pageHandleScan tickers period (some startDate) (some endDate))
    else
      FormOutcome.submitted (pageHandleScan tickers period none none)
  else
    FormOutcome.ignored

/-! ### Concrete fixtures for witnesses and counterexamples -/

/-- A task snapshot whose status is `processing`. -/
def taskProc : TaskResult :=
  { task_id := [], status := Status.processing, results := [], error := none }

/-- A task snapshot whose status is `not_found`. -/
def taskNF : TaskResult :=
  { task_id := [], status := Status.notFound, results := [], error := none }

/-- A task snapshot whose status is `completed`. -/
def taskComp : TaskResult :=
  { task_id := [], status := Status.completed, results := [], error := none }

/-- An oracle whose first poll reports `processing` and whose later polls
report `completed`. -/
def respProcComp : Nat → HttpResp :=
  fun i => ⟨true, if i = 0 then taskProc else taskComp⟩

/-- An oracle that reports `processing`, then `not_found`, then `completed`. -/
def respSeq : Nat → HttpResp :=
  fun i => ⟨true, if i = 0 then taskProc else if i = 1 then taskNF else taskComp⟩

/-- An oracle that always reports `processing`. -/
def respProc : Nat → HttpResp :=
  fun _ => ⟨true, taskProc⟩

/-- Code points of the ticker input "AAPL,MSFT". -/
def inputAM : List Nat := [65, 65, 80, 76, 44, 77, 83, 70, 84]

/-- Code points of the ticker input "AAPL aapl" (same symbol twice, in two
cases). -/
def inputDup : List Nat := [65, 65, 80, 76, 32, 97, 97, 112, 108]

/-- Code points of the ticker input "msft goog". -/
def inputLow : List Nat := [109, 115, 102, 116, 32, 103, 111, 111, 103]

/-- Code points of the ticker input "AAPL" (a single ticker). -/
def inputOne : List Nat := [65, 65, 80, 76]

/-- Code points of the date string "2024-01-01". -/
def dateStart : List Nat := [50, 48, 50, 52, 45, 48, 49, 45, 48, 49]

/-- Code points of the date string "2024-06-30". -/
def dateEnd : List Nat := [50, 48, 50, 52, 45, 48, 54, 45, 51, 48]

/-! ### Poll-loop lemmas -/

/-- Unfolding lemma: an iteration whose fetch fails transport ends the
loop with the fetch error. -/
theorem pollLoop_succ_err (resp : Nat → HttpResp) (attempt fuel : Nat)
    (hok : (resp attempt).ok = false) :
    pollLoop resp attempt (fuel + 1) =
      ([PollEvent.fetched false], Except.error PollError.fetchFailed) := by
  rw [pollLoop]
  rw [show getResults (resp attempt) = Except.error PollError.fetchFailed from by
    simp [getResults, hok]]

/-- Unfolding lemma: an iteration whose fetch succeeds delivers the
snapshot and either returns it (terminal status) or sleeps and recurses. -/
theorem pollLoop_succ_ok (resp : Nat → HttpResp) (attempt fuel : Nat)
    (hok : (resp attempt).ok = true) :
    pollLoop resp attempt (fuel + 1) =
      if (resp attempt).body.status = Status.completed ∨
          (resp attempt).body.status = Status.failed then
        ([PollEvent.fetched true, PollEvent.updated (resp attempt).body],
          Except.ok (resp attempt).body)
      else
        (PollEvent.fetched true :: PollEvent.updated (resp attempt).body ::
            PollEvent.slept :: (pollLoop resp (attempt + 1) fuel).1,
          (pollLoop resp (attempt + 1) fuel).2) := by
  rw [pollLoop]
  rw [show getResults (resp attempt) = Except.ok (resp attempt).body from by
    simp [getResults, hok]]

/-- Helper: whenever `pollLoop` returns a task, its status is terminal and
it is the last snapshot the observer received. -/
theorem pollLoop_ok_terminal (resp : Nat → HttpResp) :
    ∀ (fuel attempt : Nat) (t : TaskResult),
      (pollLoop resp attempt fuel).2 = Except.ok t →
      (t.status = Status.completed ∨ t.status = Status.failed) ∧
        (observed (pollLoop resp attempt fuel).1).getLast? = some t := by
  intro fuel
  induction fuel with
  | zero =>
    intro attempt t h
    simp [pollLoop] at h
  | succ fuel ih =>
    intro attempt t h
    cases hok : (resp attempt).ok with
    | false =>
      rw [pollLoop_succ_err resp attempt fuel hok] at h
      simp at h
    | true =>
      rw [pollLoop_succ_ok resp attempt fuel hok] at h ⊢
      by_cases hterm : (resp attempt).body.status = Status.completed ∨
          (resp attempt).body.status = Status.failed
      · rw [if_pos hterm] at h ⊢
        simp only at h
        cases h
        exact ⟨hterm, by simp [observed]⟩
      · rw [if_neg hterm] at h ⊢
        simp only at h
        obtain ⟨ht, hlast⟩ := ih (attempt + 1) t h
        refine ⟨ht, ?_⟩
        simp only [observed, List.filterMap_cons] at hlast ⊢
        cases ho : (pollLoop resp (attempt + 1) fuel).1.filterMap
            (fun e => match e with | PollEvent.updated r => some r | _ => none) with
        | nil => rw [ho] at hlast; simp at hlast
        | cons x xs =>
          rw [ho] at hlast
          rw [List.getLast?_cons_cons]
          exact hlast

/-- Helper: when every response in the window is transport-ok and carries
a non-terminal status, `pollLoop` burns all its fuel: it times out, fetches
and updates exactly `fuel` times, and its last trace event is the interval
sleep. -/
theorem pollLoop_all_nonterminal (resp : Nat → HttpResp) :
    ∀ (fuel attempt : Nat),
      (∀ i, attempt ≤ i → i < attempt + fuel →
        (resp i).ok = true ∧
          ¬((resp i).body.status = Status.completed ∨
            (resp i).body.status = Status.failed)) →
      (pollLoop resp attempt fuel).2 = Except.error PollError.timedOut ∧
        countFetches (pollLoop resp attempt fuel).1 = fuel ∧
        countUpdates (pollLoop resp attempt fuel).1 = fuel ∧
        (0 < fuel → (pollLoop resp attempt fuel).1.getLast? = some PollEvent.slept) := by
  intro fuel
  induction fuel with
  | zero =>
    intro attempt _
    refine ⟨rfl, ?_, ?_, by omega⟩ <;> simp [pollLoop, countFetches, countUpdates]
  | succ fuel ih =>
    intro attempt h
    have h0 := h attempt le_rfl (by omega)
    have hrec := ih (attempt + 1) fun i h1 h2 => h i (by omega) (by omega)
    rw [pollLoop_succ_ok resp attempt fuel h0.1, if_neg h0.2]
    refine ⟨hrec.1, ?_, ?_, fun _ => ?_⟩
    · have hc : countFetches (pollLoop resp (attempt + 1) fuel).1 = fuel := hrec.2.1
      simp [countFetches, List.countP_cons] at hc ⊢
      omega
    · have hc : countUpdates (pollLoop resp (attempt + 1) fuel).1 = fuel := hrec.2.2.1
      simp [countUpdates, List.countP_cons] at hc ⊢
      omega
    · rcases fuel with _ | fuel
      · simp [pollLoop]
      · have hlast := hrec.2.2.2 (by omega)
        cases hl : (pollLoop resp (attempt + 1) (fuel + 1)).1 with
        | nil => rw [hl] at hlast; simp at hlast
        | cons x xs =>
          rw [hl] at hlast
          rw [List.getLast?_cons_cons, List.getLast?_cons_cons, List.getLast?_cons_cons]
          exact hlast

/-- C1: for every handle (response oracle), poll interval and attempt
ceiling, `pollResults` returns only a `Task` whose status is terminal
(`completed` or `failed`); that terminal snapshot is the last value
delivered to the observer; and if all polls up to the attempt ceiling
return a non-terminal status, the call fails with the polling-timeout
error instead of returning. -/
theorem pollResults_terminal_or_timeout (resp : Nat → HttpResp) (maxAttempts : Nat) :
    (∀ t : TaskResult, (pollResults resp maxAttempts).2 = Except.ok t →
      (t.status = Status.completed ∨ t.status = Status.failed) ∧
        (observed (pollResults resp maxAttempts).1).getLast? = some t) ∧
      ((∀ i, i < maxAttempts →
        (resp i).ok = true ∧
          ¬((resp i).body.status = Status.completed ∨
            (resp i).body.status = Status.failed)) →
        (pollResults resp maxAttempts).2 = Except.error PollError.timedOut) := by
  constructor
  · intro t h
    exact pollLoop_ok_terminal resp maxAttempts 0 t h
  · intro h
    exact (pollLoop_all_nonterminal resp maxAttempts 0 fun i _ h2 => h i (by omega)).1

/-- Witness for C1 at a concrete oracle: a first poll reporting
`processing` followed by `completed` makes the loop return the `completed`
snapshot, which is terminal and the last observer value. -/
theorem pollResults_terminal_or_timeout_witness :
    (pollResults respProcComp 5).2 = Except.ok taskComp ∧
      (taskComp.status = Status.completed ∨ taskComp.status = Status.failed) ∧
        (observed (pollResults respProcComp 5).1).getLast? = some taskComp :=
  ⟨rfl, (pollResults_terminal_or_timeout respProcComp 5).1 taskComp rfl⟩

/-- C2: a poll that fetches status `not_found` is a successful poll, not
an error — `getResults` returns the snapshot whenever the transport
succeeds and errors exactly on transport failure; a non-terminal
`not_found` snapshot is delivered to the observer and the loop sleeps and
continues; and the concrete sequence `processing → not_found → completed`
returns the `completed` task, all three snapshots having been observed. -/
theorem pollResults_notFound_is_success :
    (∀ r : HttpResp, r.ok = true → getResults r = Except.ok r.body) ∧
      (∀ r : HttpResp, r.ok = false →
        getResults r = Except.error PollError.fetchFailed) ∧
      (∀ (resp : Nat → HttpResp) (attempt fuel : Nat),
        (resp attempt).ok = true →
        (resp attempt).body.status = Status.notFound →
        pollLoop resp attempt (fuel + 1) =
          (PollEvent.fetched true :: PollEvent.updated (resp attempt).body ::
              PollEvent.slept :: (pollLoop resp (attempt + 1) fuel).1,
            (pollLoop resp (attempt + 1) fuel).2)) ∧
      (pollResults respSeq 300).2 = Except.ok taskComp ∧
      observed (pollResults respSeq 300).1 = [taskProc, taskNF, taskComp] := by
  refine ⟨?_, ?_, ?_, ?_, ?_⟩
  · intro r h
    simp [getResults, h]
  · intro r h
    simp [getResults, h]
  · intro resp attempt fuel hok hnf
    rw [pollLoop_succ_ok resp attempt fuel hok, if_neg (by simp [hnf])]
  · rfl
  · rfl

/-- Witness for C2's conditional parts at concrete inputs: a transport-ok
`not_found` response is a successful poll, a transport failure is the fetch
error, and the `not_found` iteration of the concrete sequence delivers the
snapshot and continues. -/
theorem pollResults_notFound_is_success_witness :
    getResults ⟨true, taskNF⟩ = Except.ok taskNF ∧
      getResults ⟨false, taskNF⟩ = Except.error PollError.fetchFailed ∧
      pollLoop respSeq 1 2 =
        (PollEvent.fetched true :: PollEvent.updated taskNF ::
            PollEvent.slept :: (pollLoop respSeq 2 1).1,
          (pollLoop respSeq 2 1).2) :=
  ⟨pollResults_notFound_is_success.1 ⟨true, taskNF⟩ rfl,
    pollResults_notFound_is_success.2.1 ⟨false, taskNF⟩ rfl,
    pollResults_notFound_is_success.2.2.1 respSeq 1 1 rfl rfl⟩

/-- C10: if every status fetch returns a non-terminal status
(`processing` or `not_found`), the polling loop performs exactly
`maxAttempts` fetches and exactly `maxAttempts` observer invocations, and
the last event of its trace is the interval sleep — the timeout is raised
only after a full poll interval follows the final non-terminal poll. -/
theorem pollResults_timeout_full_wait (resp : Nat → HttpResp) (maxAttempts : Nat)
    (h : ∀ i, i < maxAttempts →
      (resp i).ok = true ∧
        ((resp i).body.status = Status.processing ∨
          (resp i).body.status = Status.notFound)) :
    (pollResults resp maxAttempts).2 = Except.error PollError.timedOut ∧
      countFetches (pollResults resp maxAttempts).1 = maxAttempts ∧
      countUpdates (pollResults resp maxAttempts).1 = maxAttempts ∧
      (0 < maxAttempts →
        (pollResults resp maxAttempts).1.getLast? = some PollEvent.slept) := by
  refine pollLoop_all_nonterminal resp maxAttempts 0 fun i _ hi => ?_
  obtain ⟨hok, hs⟩ := h i (by omega)
  refine ⟨hok, ?_⟩
  rcases hs with hs | hs <;> simp [hs]

/-- Witness for C10 at a concrete oracle: three always-`processing` polls
time out with three fetches, three observer calls, and a final sleep. -/
theorem pollResults_timeout_full_wait_witness :
    (pollResults respProc 3).2 = Except.error PollError.timedOut ∧
      countFetches (pollResults respProc 3).1 = 3 ∧
      countUpdates (pollResults respProc 3).1 = 3 ∧
      (0 < 3 → (pollResults respProc 3).1.getLast? = some PollEvent.slept) :=
  pollResults_timeout_full_wait respProc 3 fun _ _ => ⟨rfl, Or.inl rfl⟩

/-! ### Synthesizer lemmas -/

/-- The band scale written in the source,
`sqrt(1 / (2 * log(2) / halfLife))`, equals the spec's
`sqrt(halfLife / (2 ln 2))`. -/
theorem rollingSigma_eq (halfLife : ℝ) :
    rollingSigma halfLife = Real.sqrt (halfLife / (2 * Real.log 2)) := by
  rw [rollingSigma, sigma, one_mul, one_div_div]

/-- Helper: overwriting the last entry of a nonempty list makes the new
value its last element. -/
theorem getLast?_set_last {α : Type} (l : List α) (v : α) (h : l ≠ []) :
    (l.set (l.length - 1) v).getLast? = some v := by
  have hlen : 0 < l.length := List.length_pos.mpr h
  rw [List.getLast?_eq_getElem?, List.length_set]
  exact List.getElem?_set_eq_of_lt v (by omega)

/-- Helper: the anchor overwrite makes `z_score * rollingSigma` the final
point of the synthesized series, whatever the noise draws were. -/
theorem synthSeries_data_getLast (halfLife zScore : ℝ) (noise : ℕ → ℝ) :
    (synthSeries halfLife zScore noise).data.getLast? =
      some (zScore * rollingSigma halfLife) := by
  have hlen : (rawData halfLife noise).length = days := by simp [rawData]
  have hne : rawData halfLife noise ≠ [] := by
    intro hcon
    rw [hcon] at hlen
    simp [days] at hlen
  show ((rawData halfLife noise).set (days - 1) _).getLast? = _
  rw [show days - 1 = (rawData halfLife noise).length - 1 from by rw [hlen]]
  exact getLast?_set_last _ _ hne

/-- Helper: the persistence coefficient is positive. -/
theorem phi_pos (halfLife : ℝ) : 0 < phi halfLife :=
  Real.exp_pos _

/-- Helper: for a strictly positive half-life the persistence coefficient
is below one. -/
theorem phi_lt_one (halfLife : ℝ) (h : 0 < halfLife) : phi halfLife < 1 := by
  rw [phi, Real.exp_lt_one_iff]
  exact div_neg_of_neg_of_pos (neg_lt_zero.mpr (Real.log_pos one_lt_two)) h

/-- Helper: for a strictly positive half-life the noise radicand
`1 - phi^2` is strictly positive. -/
theorem one_sub_phi_sq_pos (halfLife : ℝ) (h : 0 < halfLife) :
    0 < 1 - phi halfLife * phi halfLife := by
  have h1 := phi_pos halfLife
  have h2 := phi_lt_one halfLife h
  nlinarith

/-- C3: for every strictly positive half-life and every z-score, the
synthesized series' final point is `zScore * sqrt(halfLife / (2 ln 2))`,
the upper band is the constant `2 * sqrt(halfLife / (2 ln 2))` at every
point, the lower band its negation at every point, and the reference line
is constantly zero; in particular at `halfLife = 30`, `zScore = 2.5`, the
final point is `2.5 * sqrt(30 / (2 ln 2))` and the upper band
`2 * sqrt(30 / (2 ln 2))`. -/
theorem synthSeries_anchor_and_bands (halfLife zScore : ℝ) (noise : ℕ → ℝ)
    (hpos : 0 < halfLife) :
    (synthSeries halfLife zScore noise).data.getLast? =
        some (zScore * Real.sqrt (halfLife / (2 * Real.log 2))) ∧
      (∀ i, i < days →
        (synthSeries halfLife zScore noise).upper[i]? =
          some (2 * Real.sqrt (halfLife / (2 * Real.log 2)))) ∧
      (∀ i, i < days →
        (synthSeries halfLife zScore noise).lower[i]? =
          some (-(2 * Real.sqrt (halfLife / (2 * Real.log 2))))) ∧
      (∀ i, i < days →
        (synthSeries halfLife zScore noise).mean[i]? = some 0) ∧
      (synthSeries 30 (2.5) noise).data.getLast? =
        some ((2.5) * Real.sqrt (30 / (2 * Real.log 2))) ∧
      (∀ i, i < days →
        (synthSeries 30 (2.5) noise).upper[i]? =
          some (2 * Real.sqrt (30 / (2 * Real.log 2)))) := by
  refine ⟨?_, ?_, ?_, ?_, ?_, ?_⟩
  · rw [synthSeries_data_getLast, rollingSigma_eq]
  · intro i hi
    simp [synthSeries, rollingSigma_eq, List.getElem?_range, hi]
  · intro i hi
    simp [synthSeries, rollingSigma_eq, List.getElem?_range, hi]
  · intro i hi
    simp [synthSeries, List.getElem?_range, hi]
  · rw [synthSeries_data_getLast, rollingSigma_eq]
  · intro i hi
    simp [synthSeries, rollingSigma_eq, List.getElem?_range, hi]

/-- Witness for C3 at `halfLife = 30`, `zScore = 2.5` and zero noise. -/
theorem synthSeries_anchor_and_bands_witness :
    (synthSeries 30 (2.5) (fun _ => 0)).data.getLast? =
        some ((2.5) * Real.sqrt (30 / (2 * Real.log 2))) ∧
      (∀ i, i < days →
        (synthSeries 30 (2.5) (fun _ => 0)).upper[i]? =
          some (2 * Real.sqrt (30 / (2 * Real.log 2)))) ∧
      (∀ i, i < days →
        (synthSeries 30 (2.5) (fun _ => 0)).mean[i]? = some 0) :=
  ⟨(synthSeries_anchor_and_bands 30 (2.5) (fun _ => 0) (by norm_num)).1,
    (synthSeries_anchor_and_bands 30 (2.5) (fun _ => 0) (by norm_num)).2.1,
    (synthSeries_anchor_and_bands 30 (2.5) (fun _ => 0) (by norm_num)).2.2.2.1⟩

/-- C4 evaluation (code bug): the synthesizer's code path has no half-life
guard — for every input, including non-positive half-lives, it produces a
series and never an `InvalidParameterError`; moreover at `halfLife = -1`
the radicand `1 - phi^2` handed to `sqrt` in the spread update is negative
(the JS `Math.sqrt` of it is `NaN`, which then fills the series). -/
theorem synthesize_no_guard :
    (∀ (halfLife zScore : ℝ) (noise : ℕ → ℝ),
      synthesize halfLife zScore noise =
        SynthOutcome.ok (synthSeries halfLife zScore noise)) ∧
      1 - phi (-1) * phi (-1) < 0 := by
  constructor
  · intro halfLife zScore noise
    rfl
  · rw [phi, show -Real.log 2 / (-1 : ℝ) = Real.log 2 by ring,
      Real.exp_log two_pos]
    norm_num

/-- C6: two synthesizer runs with identical `(halfLife, zScore)` but
arbitrary different noise draws produce the same final (anchor) point and
identical band series, while the interior of the path is noise-dependent
(two noise streams exhibiting different data series exist). -/
theorem synthSeries_anchor_deterministic (halfLife zScore : ℝ)
    (hpos : 0 < halfLife) :
    (∀ noise₁ noise₂ : ℕ → ℝ,
      (synthSeries halfLife zScore noise₁).data.getLast? =
          (synthSeries halfLife zScore noise₂).data.getLast? ∧
        (synthSeries halfLife zScore noise₁).upper =
          (synthSeries halfLife zScore noise₂).upper ∧
        (synthSeries halfLife zScore noise₁).lower =
          (synthSeries halfLife zScore noise₂).lower) ∧
      ∃ noise₁ noise₂ : ℕ → ℝ,
        (synthSeries halfLife zScore noise₁).data ≠
          (synthSeries halfLife zScore noise₂).data := by
  constructor
  · intro noise₁ noise₂
    refine ⟨?_, rfl, rfl⟩
    rw [synthSeries_data_getLast, synthSeries_data_getLast]
  · refine ⟨fun _ => 0, fun _ => 1, fun heq => ?_⟩
    have h0 : ∀ noise : ℕ → ℝ,
        (synthSeries halfLife zScore noise).data[0]? =
          some (spreadNext halfLife 0 (noise 0)) := by
      intro noise
      show ((rawData halfLife noise).set (days - 1) _)[0]? = _
      rw [List.getElem?_set_ne (by simp [days])]
      simp [rawData, days, spreadPath]
    have hval : spreadNext halfLife 0 ((fun _ : ℕ => (0 : ℝ)) 0) =
        spreadNext halfLife 0 ((fun _ : ℕ => (1 : ℝ)) 0) := by
      have := congrArg (fun l => l[0]?) heq
      simp only [h0] at this
      exact Option.some.inj this
    have hs : 0 < Real.sqrt (1 - phi halfLife * phi halfLife) :=
      Real.sqrt_pos.mpr (one_sub_phi_sq_pos halfLife hpos)
    simp only [spreadNext, sigma] at hval
    nlinarith [hval, hs]

/-- Witness for C6 at `halfLife = 30`, `zScore = 1`. -/
theorem synthSeries_anchor_deterministic_witness :
    (synthSeries 30 1 (fun _ => 0)).data.getLast? =
        (synthSeries 30 1 (fun _ => 1)).data.getLast? ∧
      (synthSeries 30 1 (fun _ => 0)).upper =
        (synthSeries 30 1 (fun _ => 1)).upper ∧
      (synthSeries 30 1 (fun _ => 0)).lower =
        (synthSeries 30 1 (fun _ => 1)).lower :=
  (synthSeries_anchor_deterministic 30 1 (by norm_num)).1 (fun _ => 0) (fun _ => 1)

/-! ### Variance of the spread recursion -/

/-- Helper: the code's noise term `(Math.random() - 0.5) * 2` has mean
zero under the uniform draw. -/
theorem noiseMean_eq : noiseMean = 0 := by
  have h1 : IntervalIntegrable (fun u : ℝ => 2 * u) MeasureTheory.volume 0 1 :=
    Continuous.intervalIntegrable (by continuity) 0 1
  have h2 : IntervalIntegrable (fun _ : ℝ => (1 : ℝ)) MeasureTheory.volume 0 1 :=
    intervalIntegrable_const
  rw [noiseMean]
  rw [show (fun u : ℝ => (u - 0.5) * 2) = fun u : ℝ => 2 * u - 1 from
    funext fun u => by ring]
  rw [intervalIntegral.integral_sub h1 h2]
  rw [intervalIntegral.integral_const_mul, integral_id,
    intervalIntegral.integral_const]
  norm_num

/-- Helper: the code's noise term `(Math.random() - 0.5) * 2` has variance
`1/3` under the uniform draw — it is not unit-variance noise. -/
theorem noiseVar_eq : noiseVar = 1 / 3 := by
  have h1 : IntervalIntegrable (fun u : ℝ => 4 * u ^ 2) MeasureTheory.volume 0 1 :=
    Continuous.intervalIntegrable (by continuity) 0 1
  have h2 : IntervalIntegrable (fun u : ℝ => 4 * u - 1) MeasureTheory.volume 0 1 :=
    Continuous.intervalIntegrable (by continuity) 0 1
  have h3 : IntervalIntegrable (fun u : ℝ => 4 * u) MeasureTheory.volume 0 1 :=
    Continuous.intervalIntegrable (by continuity) 0 1
  have h4 : IntervalIntegrable (fun _ : ℝ => (1 : ℝ)) MeasureTheory.volume 0 1 :=
    intervalIntegrable_const
  rw [noiseVar]
  rw [show (fun u : ℝ => ((u - 0.5) * 2 - noiseMean) ^ 2) =
      fun u : ℝ => 4 * u ^ 2 - (4 * u - 1) from
    funext fun u => by rw [noiseMean_eq]; ring]
  rw [intervalIntegral.integral_sub h1 h2]
  rw [intervalIntegral.integral_sub h3 h4]
  rw [intervalIntegral.integral_const_mul, intervalIntegral.integral_const_mul,
    integral_pow, integral_id,
    intervalIntegral.integral_const]
  norm_num

/-- Helper: closed form of the variance recursion:
`Var(spread_n) = (1 - phi^(2(n+1))) * noiseVar`. -/
theorem spreadVar_closed (halfLife : ℝ) (h : 0 < halfLife) (n : ℕ) :
    spreadVar halfLife n = (1 - (phi halfLife ^ 2) ^ (n + 1)) * noiseVar := by
  have hs : noiseScale halfLife ^ 2 = 1 - phi halfLife ^ 2 := by
    rw [noiseScale, Real.sq_sqrt (le_of_lt (one_sub_phi_sq_pos halfLife h))]
    ring
  induction n with
  | zero =>
    rw [spreadVar, hs]
    ring
  | succ n ih =>
    rw [spreadVar, hs, ih]
    ring

/-- Helper: under independent uniform draws the variance of the generated
spread converges to the noise variance, for every positive half-life. -/
theorem spreadVar_tendsto (halfLife : ℝ) (h : 0 < halfLife) :
    Filter.Tendsto (spreadVar halfLife) Filter.atTop (nhds noiseVar) := by
  have hq0 : 0 ≤ phi halfLife ^ 2 := sq_nonneg _
  have hq1 : phi halfLife ^ 2 < 1 := by
    have h1 := phi_pos halfLife
    have h2 := phi_lt_one halfLife h
    nlinarith
  have hpow : Filter.Tendsto (fun n : ℕ => (phi halfLife ^ 2) ^ (n + 1))
      Filter.atTop (nhds 0) :=
    (tendsto_pow_atTop_nhds_zero_of_lt_one hq0 hq1).comp (Filter.tendsto_add_atTop_nat 1)
  have hlim : Filter.Tendsto
      (fun n : ℕ => (1 - (phi halfLife ^ 2) ^ (n + 1)) * noiseVar)
      Filter.atTop (nhds ((1 - 0) * noiseVar)) :=
    (Filter.Tendsto.const_sub 1 hpow).mul_const noiseVar
  rw [sub_zero, one_mul] at hlim
  exact hlim.congr fun n => (spreadVar_closed halfLife h n).symm

/-- C7 counterexample: at the concrete half-life 30 the long-run variance
of the generated process is not 1 — the claimed unit stationary variance
fails on the code's uniform noise. -/
theorem spreadVar_not_unit :
    ¬ Filter.Tendsto (spreadVar 30) Filter.atTop (nhds 1) := by
  intro hcon
  have h13 : (1 : ℝ) = noiseVar :=
    tendsto_nhds_unique hcon (spreadVar_tendsto 30 (by norm_num))
  rw [noiseVar_eq] at h13
  norm_num at h13

/-- C7 amended: the recursion
`spread[i] = phi * spread[i-1] + sqrt(1 - phi^2) * noise[i]` preserves the
*noise* variance: for every positive half-life the long-run variance of the
generated process equals the variance of the code's uniform noise term
`(Math.random() - 0.5) * 2`, which is `1/3`, not 1. -/
theorem spreadVar_limit_noiseVar (halfLife : ℝ) (h : 0 < halfLife) :
    Filter.Tendsto (spreadVar halfLife) Filter.atTop (nhds noiseVar) ∧
      noiseVar = 1 / 3 :=
  ⟨spreadVar_tendsto halfLife h, noiseVar_eq⟩

/-- Witness for the amended C7 at half-life 30. -/
theorem spreadVar_limit_noiseVar_witness :
    Filter.Tendsto (spreadVar 30) Filter.atTop (nhds noiseVar) ∧
      noiseVar = 1 / 3 :=
  spreadVar_limit_noiseVar 30 (by norm_num)

/-! ### Scan submission -/

/-- Helper: the ASCII uppercasing of `toUpperCase` is idempotent. -/
theorem jsToUpperCode_idem (c : Nat) :
    jsToUpperCode (jsToUpperCode c) = jsToUpperCode c := by
  unfold jsToUpperCode
  split_ifs <;> omega

/-- Helper: any submitted request carries exactly the normalized ticker
list, the selected period, and no date fields. -/
theorem scanFormHandleScan_submitted (input : List Nat) (period : Period)
    (s e : List Nat) (req : ScanRequest)
    (h : scanFormHandleScan input period s e = FormOutcome.submitted req) :
    req = { tickers := normalizeTickers input, period := period,
            start_date := none, end_date := none } ∧
      2 ≤ (normalizeTickers input).length := by
  unfold scanFormHandleScan at h
  by_cases hlen : 2 ≤ (normalizeTickers input).length
  · rw [if_pos hlen] at h
    by_cases hper : period = Period.custom
    · rw [if_pos hper] at h
      cases h
      exact ⟨rfl, hlen⟩
    · rw [if_neg hper] at h
      cases h
      exact ⟨rfl, hlen⟩
  · rw [if_neg hlen] at h
    exact absurd h (by simp)

/-- C5 evaluation (code bug): the submit pipeline performs no request
validation.  A custom-period scan with an empty start date is submitted to
the network unvalidated, and a single-ticker click silently does nothing —
in neither case is any `ValidationError` surfaced (the embedding's outcome
type, read off the source, has no validation-error alternative at all). -/
theorem scanForm_no_validation :
    scanFormHandleScan inputAM Period.custom [] dateEnd =
        FormOutcome.submitted
          { tickers := [[65, 65, 80, 76], [77, 83, 70, 84]],
            period := Period.custom, start_date := none, end_date := none } ∧
      scanFormHandleScan inputOne Period.p1y [] [] = FormOutcome.ignored := by
  exact ⟨rfl, rfl⟩

/-- C8 evaluation (code bug): the page's `handleScan` binds only
`(tickers, period)`, so every submitted request — in particular a
custom-period scan for which the form supplied both dates — is posted with
absent `start_date` and `end_date` fields. -/
theorem submitted_request_drops_dates :
    (∀ (input : List Nat) (period : Period) (s e : List Nat) (req : ScanRequest),
      scanFormHandleScan input period s e = FormOutcome.submitted req →
      req.start_date = none ∧ req.end_date = none) ∧
      scanFormHandleScan inputAM Period.custom dateStart dateEnd =
        FormOutcome.submitted
          { tickers := [[65, 65, 80, 76], [77, 83, 70, 84]],
            period := Period.custom, start_date := none, end_date := none } := by
  constructor
  · intro input period s e req h
    rw [(scanFormHandleScan_submitted input period s e req h).1]
    exact ⟨rfl, rfl⟩
  · rfl

/-- Witness for C8's universally quantified part at a concrete
custom-period submission with both dates supplied. -/
theorem submitted_request_drops_dates_witness :
    ({ tickers := [[65, 65, 80, 76], [77, 83, 70, 84]],
       period := Period.custom, start_date := none,
       end_date := none } : ScanRequest).start_date = none ∧
      ({ tickers := [[65, 65, 80, 76], [77, 83, 70, 84]],
         period := Period.custom, start_date := none,
         end_date := none } : ScanRequest).end_date = none :=
  submitted_request_drops_dates.1 inputAM Period.custom dateStart dateEnd _ rfl

/-- C9 counterexample: the ticker input "AAPL aapl" is submitted — it
passes the `length >= 2` check — but its normalized ticker list contains
the same symbol twice: submitted requests are not duplicate-free. -/
theorem submitted_tickers_duplicate :
    scanFormHandleScan inputDup Period.p1y [] [] =
        FormOutcome.submitted
          { tickers := [[65, 65, 80, 76], [65, 65, 80, 76]],
            period := Period.p1y, start_date := none, end_date := none } ∧
      ¬ ([[65, 65, 80, 76], [65, 65, 80, 76]] : List (List Nat)).Nodup := by
  exact ⟨rfl, by decide⟩

/-- C9 amended: every ScanRequest that is actually submitted carries a
case-normalized (uppercased) ticker list of length at least 2 whose
entries are nonempty; the list is not deduplicated, so it may contain
repeats. -/
theorem submitted_tickers_normalized (input : List Nat) (period : Period)
    (s e : List Nat) (req : ScanRequest)
    (h : scanFormHandleScan input period s e = FormOutcome.submitted req) :
    2 ≤ req.tickers.length ∧
      ∀ t ∈ req.tickers, t ≠ [] ∧ t.map jsToUpperCode = t := by
  obtain ⟨hreq, hlen⟩ := scanFormHandleScan_submitted input period s e req h
  rw [hreq]
  refine ⟨hlen, ?_⟩
  intro t ht
  simp only [normalizeTickers, List.mem_filter, List.mem_map] at ht
  obtain ⟨⟨u, _, hu⟩, hne⟩ := ht
  constructor
  · intro hcon
    rw [hcon] at hne
    simp at hne
  · rw [← hu, List.map_map]
    exact List.map_congr_left fun c _ => jsToUpperCode_idem c

/-- Witness for the amended C9 at the lowercase input "msft goog". -/
theorem submitted_tickers_normalized_witness :
    2 ≤ ([[77, 83, 70, 84], [71, 79, 79, 71]] : List (List Nat)).length ∧
      ∀ t ∈ ([[77, 83, 70, 84], [71, 79, 79, 71]] : List (List Nat)),
        t ≠ [] ∧ t.map jsToUpperCode = t :=
  submitted_tickers_normalized inputLow Period.p3y [] []
    { tickers := [[77, 83, 70, 84], [71, 79, 79, 71]], period := Period.p3y,
      start_date := none, end_date := none } rfl

end Omnispread
